import Mathlib

/-!
Shallow embedding of the ESP8266 cloud water-level server (src/server.js):
the alert decision engine (checkAlerts), the history ring, the
current-reading store, the ingestion endpoint (POST /api/update) and the
read-only query endpoints (GET /api/status, GET /api/history).

Modelling conventions:
- JavaScript numbers are modelled by the rationals; NaN is modelled as
  `none` in `Option ℚ` (every comparison against NaN is false, matching
  IEEE semantics used by the JS comparison operators).
- A JSON field of a request body is a `JSValue`: `undef` models an absent
  field (destructuring yields undefined), `null` models JSON null, and
  `num q` a JSON number.
- Timestamps (Date.now()) are integers in milliseconds.
- The asynchronous Telegram send in checkAlerts is modelled by a boolean
  parameter `sendOk`: the .then branch (which commits lastAlertTime and
  lastAlertType) runs only when the send succeeds, the .catch branch
  (which only logs) runs when it fails.
-/

namespace ESPCloud

/-- A loosely typed JSON field as seen after destructuring req.body. -/
inductive JSValue
  | undef
  | null
  | num (q : ℚ)
deriving DecidableEq

/-- JS parseFloat restricted to the modelled value space: a number parses to
itself, undefined and null coerce to NaN (`none`). -/
def jsParseFloat : JSValue → Option ℚ
  | .num q => some q
  | _ => none

/-- Truncation toward zero, the integer part taken by JS parseInt on the
decimal rendering of a number. -/
def truncQ (q : ℚ) : Int := if 0 ≤ q then ⌊q⌋ else -⌊-q⌋

/-- JS parseInt restricted to the modelled value space: a number truncates
toward zero, undefined and null give NaN (`none`). -/
def jsParseInt : JSValue → Option Int
  | .num q => some (truncQ q)
  | _ => none

/-- The rssi normalization from server.js line 93: parseInt of the field
with a falsy-or fallback of -100, so the fallback is taken when parseInt
gives NaN and also when it gives the falsy number 0. -/
def rssiOrSentinel (v : JSValue) : Int :=
  match jsParseInt v with
  | some n => if n = 0 then -100 else n
  | none => -100

/-- Alert band of a non-Normal reading, the values of the alertType string. -/
inductive AlertKind
  | low
  | high
deriving DecidableEq

/-- Alert thresholds and cooldown from config.alerts. -/
structure AlertConfig where
  low : ℚ
  high : ℚ
  cooldown : Int
deriving DecidableEq

/-- The module-level alert engine state: lastAlertTime and lastAlertType
(`none` models the JS null). -/
structure AlertState where
  lastAlertTime : Int
  lastAlertType : Option AlertKind
deriving DecidableEq

/-- Initial alert state: lastAlertTime = 0, lastAlertType = null. -/
def initialAlertState : AlertState := ⟨0, none⟩

/-- NaN-aware strict less-than: NaN < x is false. -/
def nLt (a : Option ℚ) (b : ℚ) : Bool :=
  match a with
  | some a => decide (a < b)
  | none => false

/-- NaN-aware strict greater-than: NaN > x is false. -/
def nGt (a : Option ℚ) (b : ℚ) : Bool :=
  match a with
  | some a => decide (b < a)
  | none => false

/-- NaN-aware greater-or-equal: NaN >= x is false. -/
def nGe (a : Option ℚ) (b : ℚ) : Bool :=
  match a with
  | some a => decide (b ≤ a)
  | none => false

/-- NaN-aware less-or-equal: NaN <= x is false. -/
def nLe (a : Option ℚ) (b : ℚ) : Bool :=
  match a with
  | some a => decide (a ≤ b)
  | none => false

/-- Band classification from checkAlerts lines 45-51: low when
level < config.alerts.low, high when level > config.alerts.high,
otherwise none (Normal). -/
def classify (cfg : AlertConfig) (level : Option ℚ) : Option AlertKind :=
  if nLt level cfg.low then some .low
  else if nGt level cfg.high then some .high
  else none

/-- checkAlerts from server.js lines 40-76. Returns the new alert state and
the kind of alert dispatched (none when nothing was sent). `sendOk` is the
outcome of the asynchronous bot.sendMessage: the state update
(lastAlertTime := now, lastAlertType := alertType) sits in the .then
callback and therefore happens only when the send succeeds. -/
def checkAlerts (cfg : AlertConfig) (st : AlertState) (level : Option ℚ)
    (now : Int) (sendOk : Bool) : AlertState × Option AlertKind :=
  match classify cfg level with
  | some b =>
    if some b ≠ st.lastAlertType ∨ now - st.lastAlertTime > cfg.cooldown then
      ((if sendOk then ⟨now, some b⟩ else st), some b)
    else
      (st, none)
  | none =>
    if st.lastAlertType ≠ none ∧ nGe level cfg.low ∧ nLe level cfg.high then
      (⟨st.lastAlertTime, none⟩, none)
    else
      (st, none)

/-- Runs checkAlerts over a sequence of (level, now) pairs with every
dispatch succeeding, collecting the emitted alert kinds. -/
def runAlerts (cfg : AlertConfig) : AlertState → List (ℚ × Int) →
    AlertState × List (Option AlertKind)
  | st, [] => (st, [])
  | st, (l, t) :: rest =>
    let r := checkAlerts cfg st (some l) t true
    let rr := runAlerts cfg r.1 rest
    (rr.1, r.2 :: rr.2)

/-- One retained history point: minute-resolution time label t and level v. -/
structure HistoryPoint where
  t : String
  v : Option ℚ
deriving DecidableEq

/-- MAX_HISTORY from server.js line 27. -/
def MAX_HISTORY : Nat := 100

/-- history.push(point) followed by history.shift() when the length exceeds
MAX_HISTORY (server.js lines 104-107). -/
def pushHistory (h : List HistoryPoint) (p : HistoryPoint) : List HistoryPoint :=
  let h2 := h ++ [p]
  if MAX_HISTORY < h2.length then h2.tail else h2

/-- The current-reading store currentStatus (server.js lines 17-23). -/
structure Reading where
  distance : Option ℚ
  level : Option ℚ
  rssi : Int
  time : String
  lastSeen : Int
deriving DecidableEq

/-- Initial currentStatus value. -/
def initialReading : Reading := ⟨some 0, some 0, -100, "--:--", 0⟩

/-- The whole mutable server state: currentStatus, history and the alert
engine state. -/
structure ServerState where
  currentStatus : Reading
  history : List HistoryPoint
  alerts : AlertState
deriving DecidableEq

/-- Server state at process start. -/
def initialServerState : ServerState := ⟨initialReading, [], initialAlertState⟩

/-- HTTP outcome of POST /api/update: 400 with error Missing data, or 200
with success true. -/
inductive UpdateResult
  | missingData
  | success
deriving DecidableEq

/-- The destructured request body of POST /api/update. -/
structure UpdatePayload where
  distance : JSValue
  level : JSValue
  rssi : JSValue
  status : Option String
deriving DecidableEq

/-- POST /api/update handler (server.js lines 82-126). `timeStr` and
`tLabel` are the locale-formatted clock strings, environmental inputs.
Rejects when distance or level is undefined, mutating nothing; otherwise
replaces currentStatus wholesale, appends a history point built from the
same parseFloat of level, sends boot/wake lifecycle messages (which do not
touch state), and runs checkAlerts on the coerced level. -/
def apiUpdate (cfg : AlertConfig) (p : UpdatePayload) (now : Int)
    (timeStr tLabel : String) (sendOk : Bool) (st : ServerState) :
    ServerState × UpdateResult :=
  if p.distance = .undef ∨ p.level = .undef then
    (st, .missingData)
  else
    let cur : Reading :=
      ⟨jsParseFloat p.distance, jsParseFloat p.level, rssiOrSentinel p.rssi,
        timeStr, now⟩
    let hp : HistoryPoint := ⟨tLabel, jsParseFloat p.level⟩
    let hist := pushHistory st.history hp
    let al := (checkAlerts cfg st.alerts cur.level now sendOk).1
    (⟨cur, hist, al⟩, .success)

/-- Response shape of GET /api/status: the spread of currentStatus plus the
computed online flag. -/
structure StatusResponse where
  distance : Option ℚ
  level : Option ℚ
  rssi : Int
  time : String
  lastSeen : Int
  online : Bool
deriving DecidableEq

/-- Liveness check from server.js line 150: online iff the gap since
lastSeen is under two minutes. -/
def isOnline (lastSeen now : Int) : Bool :=
  decide (now - lastSeen < 120000)

/-- GET /api/status handler (server.js lines 148-156): a pure read, the
state is returned unchanged alongside the response. -/
def apiStatus (st : ServerState) (now : Int) : ServerState × StatusResponse :=
  (st,
    ⟨st.currentStatus.distance, st.currentStatus.level, st.currentStatus.rssi,
      st.currentStatus.time, st.currentStatus.lastSeen,
      isOnline st.currentStatus.lastSeen now⟩)

/-- GET /api/history handler (server.js lines 159-161): a pure read
returning the history snapshot. -/
def apiHistory (st : ServerState) : ServerState × List HistoryPoint :=
  (st, st.history)

/-- Sample configuration used in the concrete spec scenarios. -/
def cfg10_90 : AlertConfig := ⟨10, 90, 60000⟩

/-- Sample history point for witnesses. -/
def samplePoint : HistoryPoint := ⟨"", some 0⟩

end ESPCloud


namespace ESPCloud

/-- Helper: taking the tail of a nonempty list extended by one element drops
the original head. -/
theorem tail_append_singleton {α : Type} (h : List α) (p : α) (hne : h ≠ []) :
    (h ++ [p]).tail = h.tail ++ [p] := by
  cases h with
  | nil => exact absurd rfl hne
  | cons a t => simp

/-- Helper: the newest appended point is always the last element of the
history ring, whether or not an eviction happened. -/
theorem pushHistory_getLastEq (h : List HistoryPoint) (p : HistoryPoint) :
    (pushHistory h p).getLast? = some p := by
  simp only [pushHistory]
  split
  · rename_i hgt
    cases h with
    | nil => simp [MAX_HISTORY] at hgt
    | cons a t => simp
  · simp

/-- Helper: a sequence of appends into an initially empty ring retains
exactly the most recent 100 points, in insertion order. -/
theorem foldl_pushHistory_drop (ps : List HistoryPoint) :
    List.foldl pushHistory [] ps = ps.drop (ps.length - 100) := by
  induction ps using List.reverseRecOn with
  | nil => simp
  | append_singleton l a ih =>
    rw [List.foldl_append, List.foldl_cons, List.foldl_nil, ih]
    by_cases hl : l.length < 100
    · have hda : l.length - 100 = 0 := by omega
      have hdb : (l ++ [a]).length - 100 = 0 := by
        simp [List.length_append]; omega
      rw [hda, hdb, List.drop_zero, List.drop_zero]
      simp only [pushHistory]
      rw [if_neg]
      simp only [MAX_HISTORY, List.length_append, List.length_cons,
        List.length_nil]
      omega
    · push_neg at hl
      have hlen : (l.drop (l.length - 100)).length = 100 := by
        simp [List.length_drop]; omega
      have hcond : MAX_HISTORY < (l.drop (l.length - 100) ++ [a]).length := by
        simp only [List.length_append, hlen, MAX_HISTORY, List.length_cons,
          List.length_nil]
        omega
      have hne : l.drop (l.length - 100) ≠ [] := by
        intro hh
        rw [hh] at hlen
        simp at hlen
      simp only [pushHistory]
      rw [if_pos hcond, tail_append_singleton _ _ hne, ← List.drop_one,
        List.drop_drop]
      rw [List.drop_append_of_le_length
        (by simp only [List.length_append, List.length_cons, List.length_nil]
            omega)]
      congr 2
      simp [List.length_append]
      omega

end ESPCloud

namespace ESPCloud

/-- Claim C5: an update whose payload lacks distance or level yields the
MissingData error (HTTP 400) and leaves the whole server state — current
reading, history ring and alert state — exactly as it was. -/
theorem missingData_no_mutation (cfg : AlertConfig) (p : UpdatePayload)
    (now : Int) (ts tl : String) (ok : Bool) (st : ServerState) :
    p.distance = .undef ∨ p.level = .undef →
    apiUpdate cfg p now ts tl ok st = (st, .missingData) := by
  intro h
  unfold apiUpdate
  rw [if_pos h]

/-- Witness for C5: the spec example payload with distance 12.5 and no
level is rejected without mutation. -/
theorem missingData_no_mutation_witness :
    apiUpdate cfg10_90 ⟨.num (25 / 2), .undef, .undef, none⟩ 1000 "t" "m"
      true initialServerState = (initialServerState, .missingData) :=
  missingData_no_mutation cfg10_90 ⟨.num (25 / 2), .undef, .undef, none⟩ 1000
    "t" "m" true initialServerState (Or.inr rfl)

/-- Claim C6: the history ring is bounded FIFO. Appending to a ring of at
most 100 points keeps at most 100 points, evicting exactly the head exactly
when the ring was full, and 150 appends into an empty ring leave precisely
the last 100 appended points in insertion order. -/
theorem historyRing_bounded_fifo (h : List HistoryPoint) (p : HistoryPoint)
    (ps : List HistoryPoint) :
    (h.length ≤ 100 →
      (pushHistory h p).length ≤ 100 ∧
      pushHistory h p = if h.length = 100 then h.tail ++ [p] else h ++ [p]) ∧
    (ps.length = 150 → List.foldl pushHistory [] ps = ps.drop 50) := by
  constructor
  · intro hle
    by_cases h100 : h.length = 100
    · have hc : MAX_HISTORY < (h ++ [p]).length := by
        simp only [MAX_HISTORY, List.length_append, List.length_cons,
          List.length_nil, h100]
        omega
      have hne : h ≠ [] := by
        intro hh
        rw [hh] at h100
        simp at h100
      constructor
      · simp only [pushHistory]
        rw [if_pos hc, tail_append_singleton _ _ hne]
        simp only [List.length_append, List.length_tail, List.length_cons,
          List.length_nil, h100]
        omega
      · simp only [pushHistory]
        rw [if_pos hc, tail_append_singleton _ _ hne, if_pos h100]
    · have hlt : h.length < 100 := lt_of_le_of_ne hle h100
      have hc : ¬ MAX_HISTORY < (h ++ [p]).length := by
        simp only [MAX_HISTORY, List.length_append, List.length_cons,
          List.length_nil]
        omega
      constructor
      · simp only [pushHistory]
        rw [if_neg hc]
        simp only [List.length_append, List.length_cons, List.length_nil]
        omega
      · simp only [pushHistory]
        rw [if_neg hc, if_neg h100]
  · intro h150
    rw [foldl_pushHistory_drop, h150]

/-- Witness for C6: a single append into an empty ring, and 150 identical
appends leaving the last 100. -/
theorem historyRing_bounded_fifo_witness :
    pushHistory [] samplePoint = [samplePoint] ∧
    List.foldl pushHistory [] (List.replicate 150 samplePoint) =
      (List.replicate 150 samplePoint).drop 50 :=
  ⟨by
    have h := (historyRing_bounded_fifo [] samplePoint
      (List.replicate 150 samplePoint)).1 (by decide)
    simpa using h.2,
   (historyRing_bounded_fifo [] samplePoint
      (List.replicate 150 samplePoint)).2 (by simp)⟩

/-- Claim C7: isOnline is true exactly when the gap since the last update is
under 120000 milliseconds: true at a gap of 119999, false at 120000, and
false for every query at least 120000 after a device never seen. -/
theorem isOnline_boundary (lastSeen now : Int) :
    (isOnline lastSeen now = true ↔ now - lastSeen < 120000) ∧
    isOnline 0 119999 = true ∧
    isOnline 0 120000 = false ∧
    (∀ n : Int, 120000 ≤ n → isOnline 0 n = false) := by
  refine ⟨?_, by decide, by decide, ?_⟩
  · simp [isOnline]
  · intro n hn
    simp only [isOnline, decide_eq_false_iff_not, not_lt]
    omega

/-- Witness for C7: at exactly the two-minute gap the device reads offline. -/
theorem isOnline_boundary_witness : isOnline 0 120000 = false :=
  (isOnline_boundary 0 120000).2.2.2 120000 (by decide)

/-- Claim C10: the status and history queries are pure reads: they return
the server state unchanged, and two consecutive history snapshots with no
intervening append are identical. -/
theorem queries_are_pure_reads (st : ServerState) (now : Int) :
    (apiStatus st now).1 = st ∧
    (apiHistory st).1 = st ∧
    (apiHistory ((apiStatus st now).1)).2 = st.history ∧
    (apiHistory st).2 = (apiHistory ((apiHistory st).1)).2 :=
  ⟨rfl, rfl, rfl, rfl⟩

end ESPCloud

namespace ESPCloud

/-- Counterexample for C1: an emitting evaluation (a dispatch is initiated,
the send fails) whose post-state does not record the new alert kind or
timestamp — the transition is not committed at decision time. -/
theorem alertCommit_counterexample :
    (checkAlerts cfg10_90 initialAlertState (some 5) 1000 false).2 =
      some AlertKind.low ∧
    (checkAlerts cfg10_90 initialAlertState (some 5) 1000 false).1 =
      initialAlertState ∧
    initialAlertState.lastAlertType ≠ some AlertKind.low ∧
    initialAlertState.lastAlertTime ≠ 1000 := by decide

/-- Claim C1 as amended: when the engine decides to emit, a dispatch is
initiated, but the transition (lastAlertType := band,
lastAlertTime := now) is committed only when the send succeeds; a failed
send leaves the alert state unchanged. The state never moves to Low/High
except through an emitting evaluation of that kind. -/
theorem alertCommit_requires_success (cfg : AlertConfig) (st : AlertState)
    (level : Option ℚ) (now : Int) (b : AlertKind) :
    ((checkAlerts cfg st level now true).2 = some b →
      (checkAlerts cfg st level now true).1 = ⟨now, some b⟩) ∧
    ((checkAlerts cfg st level now false).2 = some b →
      (checkAlerts cfg st level now false).1 = st) ∧
    (∀ ok : Bool, ∀ k : AlertKind,
      (checkAlerts cfg st level now ok).1.lastAlertType = some k →
        st.lastAlertType = some k ∨
          (checkAlerts cfg st level now ok).2 = some k) := by
  rcases hcl : classify cfg level with - | b2
  · refine ⟨?_, ?_, ?_⟩
    · intro hemit
      simp only [checkAlerts, hcl] at hemit
      split at hemit <;> simp at hemit
    · intro hemit
      simp only [checkAlerts, hcl] at hemit
      split at hemit <;> simp at hemit
    · intro ok k hty
      simp only [checkAlerts, hcl] at hty
      split at hty
      · simp at hty
      · exact Or.inl hty
  · by_cases hcond :
      some b2 ≠ st.lastAlertType ∨ now - st.lastAlertTime > cfg.cooldown
    · refine ⟨?_, ?_, ?_⟩
      · intro hemit
        simp only [checkAlerts, hcl, if_pos hcond] at hemit ⊢
        simp only [Option.some.injEq] at hemit
        subst hemit
        rfl
      · intro hemit
        simp only [checkAlerts, hcl, if_pos hcond] at hemit ⊢
        rfl
      · intro ok k hty
        simp only [checkAlerts, hcl, if_pos hcond] at hty ⊢
        cases ok with
        | true =>
          simp only [if_pos] at hty
          right
          simp only [Option.some.injEq] at hty ⊢
          exact hty
        | false =>
          simp at hty
          exact Or.inl hty
    · refine ⟨?_, ?_, ?_⟩
      · intro hemit
        simp only [checkAlerts, hcl, if_neg hcond] at hemit
        simp at hemit
      · intro hemit
        simp only [checkAlerts, hcl, if_neg hcond] at hemit
        simp at hemit
      · intro ok k hty
        simp only [checkAlerts, hcl, if_neg hcond] at hty
        exact Or.inl hty

/-- Witness for C1 (amended): a concrete Low decision commits the state when
the send succeeds, leaves it untouched when the send fails, and the only
route to a Low state is an emission. -/
theorem alertCommit_requires_success_witness :
    (checkAlerts cfg10_90 initialAlertState (some 5) 1000 true).1 =
      (⟨1000, some AlertKind.low⟩ : AlertState) ∧
    (checkAlerts cfg10_90 initialAlertState (some 5) 1000 false).1 =
      initialAlertState ∧
    (initialAlertState.lastAlertType = some AlertKind.low ∨
      (checkAlerts cfg10_90 initialAlertState (some 5) 1000 true).2 =
        some AlertKind.low) :=
  ⟨(alertCommit_requires_success cfg10_90 initialAlertState (some 5) 1000
      AlertKind.low).1 (by decide),
   (alertCommit_requires_success cfg10_90 initialAlertState (some 5) 1000
      AlertKind.low).2.1 (by decide),
   (alertCommit_requires_success cfg10_90 initialAlertState (some 5) 1000
      AlertKind.low).2.2 true AlertKind.low (by decide)⟩

/-- Claim C2: for a level classified Low or High the engine emits exactly
when the band differs from the stored lastAlertType or the cooldown has
elapsed, and otherwise suppresses with no state change; concretely, levels
5, 5, 5 against thresholds 10/90 with a 60000 ms cooldown inside 1 ms emit
only the first Low, and levels 5 then 95 back-to-back emit Low then High. -/
theorem alertEmit_iff_bandChange_or_cooldown (cfg : AlertConfig)
    (st : AlertState) (b : AlertKind) (level : ℚ) (now : Int) (ok : Bool) :
    (classify cfg (some level) = some b →
      checkAlerts cfg st (some level) now ok =
        if some b ≠ st.lastAlertType ∨ now - st.lastAlertTime > cfg.cooldown
        then ((if ok then ⟨now, some b⟩ else st), some b)
        else (st, none)) ∧
    (runAlerts cfg10_90 initialAlertState
      [(5, 100000), (5, 100000), (5, 100001)]).2 =
      [some AlertKind.low, none, none] ∧
    (runAlerts cfg10_90 initialAlertState [(5, 1000), (95, 1000)]).2 =
      [some AlertKind.low, some AlertKind.high] := by
  refine ⟨?_, by decide, by decide⟩
  intro hcl
  simp only [checkAlerts, hcl]

/-- Witness for C2: the first Low reading against a fresh engine emits and
commits the Low state. -/
theorem alertEmit_iff_witness :
    checkAlerts cfg10_90 initialAlertState (some 5) 1000 true =
      ((⟨1000, some AlertKind.low⟩ : AlertState), some AlertKind.low) := by
  rw [(alertEmit_iff_bandChange_or_cooldown cfg10_90 initialAlertState
    AlertKind.low 5 1000 true).1 (by decide)]
  decide

/-- Claim C3: thresholds are exclusive — a level in the closed interval
from lowThreshold to highThreshold is Normal, emits nothing, and resets
lastAlertType to None, so the next Low or High classification emits
immediately regardless of the cooldown; concretely levels 5, 50, 5 against
thresholds 10/90 emit Low, nothing, Low. -/
theorem normalBand_resets_and_fires_immediately (cfg : AlertConfig)
    (st : AlertState) (l1 l2 : ℚ) (now : Int) (ok : Bool) (b : AlertKind) :
    (cfg.low ≤ l1 → l1 ≤ cfg.high →
      checkAlerts cfg st (some l1) now ok =
        ((⟨st.lastAlertTime, none⟩ : AlertState), none)) ∧
    (st.lastAlertType = none → classify cfg (some l2) = some b →
      (checkAlerts cfg st (some l2) now ok).2 = some b) ∧
    (runAlerts cfg10_90 initialAlertState
      [(5, 1000), (50, 1001), (5, 1002)]).2 =
      [some AlertKind.low, none, some AlertKind.low] := by
  refine ⟨?_, ?_, by decide⟩
  · intro h1 h2
    have e1 : nLt (some l1) cfg.low = false := by
      simpa [nLt] using not_lt.mpr h1
    have e2 : nGt (some l1) cfg.high = false := by
      simpa [nGt] using not_lt.mpr h2
    have e3 : nGe (some l1) cfg.low = true := by simpa [nGe] using h1
    have e4 : nLe (some l1) cfg.high = true := by simpa [nLe] using h2
    have hcl : classify cfg (some l1) = none := by simp [classify, e1, e2]
    simp only [checkAlerts, hcl, e3, e4]
    rcases hst : st.lastAlertType with - | k
    · cases st with
      | mk t ty =>
        simp only at hst
        subst hst
        simp
    · simp [hst]
  · intro hst hcl
    simp only [checkAlerts, hcl]
    rw [if_pos (Or.inl (by simp [hst]))]

/-- Witness for C3: the boundary level 10 with thresholds 10/90 is Normal
and resets the state, and a Low reading against a cleared state emits. -/
theorem normalBand_resets_witness :
    checkAlerts cfg10_90 initialAlertState (some 10) 2000 true =
      ((⟨0, none⟩ : AlertState), none) ∧
    (checkAlerts cfg10_90 initialAlertState (some 5) 2000 true).2 =
      some AlertKind.low :=
  ⟨(normalBand_resets_and_fires_immediately cfg10_90 initialAlertState 10 5
      2000 true AlertKind.low).1 (by decide) (by decide),
   (normalBand_resets_and_fires_immediately cfg10_90 initialAlertState 10 5
      2000 true AlertKind.low).2.1 rfl (by decide)⟩

end ESPCloud

namespace ESPCloud

/-- Counterexample for C4: an accepted ingestion carrying rssi = 0 stores
the sentinel -100 rather than 0, because 0 is falsy in the fallback
expression. -/
theorem rssi_zero_counterexample :
    (apiUpdate cfg10_90 ⟨.num 1, .num 50, .num 0, none⟩ 1000 "t" "m" true
        initialServerState).1.currentStatus.rssi = -100 ∧
    (-100 : Int) ≠ 0 := by decide

/-- Claim C4 as amended: the stored signalStrength is parseInt of the
supplied rssi whenever that integer is nonzero; the sentinel -100 is stored
when rssi is absent or non-numeric, and also when it truncates to 0. -/
theorem rssi_sentinel_amended (cfg : AlertConfig) (p : UpdatePayload)
    (now : Int) (ts tl : String) (ok : Bool) (st : ServerState) (q : ℚ)
    (w : JSValue) :
    (p.distance ≠ .undef → p.level ≠ .undef →
      (apiUpdate cfg p now ts tl ok st).1.currentStatus.rssi =
        rssiOrSentinel p.rssi) ∧
    (rssiOrSentinel (.num q) =
      if truncQ q = 0 then -100 else truncQ q) ∧
    (jsParseInt w = none → rssiOrSentinel w = -100) := by
  refine ⟨?_, rfl, ?_⟩
  · intro h1 h2
    unfold apiUpdate
    rw [if_neg (not_or.mpr ⟨h1, h2⟩)]
  · intro hw
    simp [rssiOrSentinel, hw]

/-- Witness for C4 (amended): a nonzero rssi of 7 is stored as 7, and an
absent rssi stores the sentinel. -/
theorem rssi_sentinel_witness :
    (apiUpdate cfg10_90 ⟨.num 1, .num 50, .num 7, none⟩ 1000 "t" "m" true
        initialServerState).1.currentStatus.rssi = rssiOrSentinel (.num 7) ∧
    rssiOrSentinel .undef = -100 :=
  ⟨(rssi_sentinel_amended cfg10_90 ⟨.num 1, .num 50, .num 7, none⟩ 1000 "t"
      "m" true initialServerState 7 .undef).1 (by decide) (by decide),
   (rssi_sentinel_amended cfg10_90 ⟨.num 1, .num 50, .num 7, none⟩ 1000 "t"
      "m" true initialServerState 7 .undef).2.2 rfl⟩

/-- Claim C8: the presence check rejects only undefined, so any payload
whose distance and level are present — null included — passes validation,
returns success, replaces the current reading with the coercion results
(NaN, modelled as none, for null) and appends to the history ring. -/
theorem null_passes_validation (cfg : AlertConfig) (p : UpdatePayload)
    (now : Int) (ts tl : String) (ok : Bool) (st : ServerState) :
    p.distance ≠ .undef → p.level ≠ .undef →
    (apiUpdate cfg p now ts tl ok st).2 = .success ∧
    (apiUpdate cfg p now ts tl ok st).1.currentStatus =
      ⟨jsParseFloat p.distance, jsParseFloat p.level, rssiOrSentinel p.rssi,
        ts, now⟩ ∧
    (apiUpdate cfg p now ts tl ok st).1.history =
      pushHistory st.history ⟨tl, jsParseFloat p.level⟩ ∧
    jsParseFloat .null = none := by
  intro h1 h2
  unfold apiUpdate
  rw [if_neg (not_or.mpr ⟨h1, h2⟩)]
  exact ⟨rfl, rfl, rfl, rfl⟩

/-- Witness for C8: a payload with null distance and null level is accepted
and the stored level is NaN. -/
theorem null_passes_validation_witness :
    (apiUpdate cfg10_90 ⟨.null, .null, .undef, none⟩ 1000 "t" "m" true
        initialServerState).2 = UpdateResult.success ∧
    (apiUpdate cfg10_90 ⟨.null, .null, .undef, none⟩ 1000 "t" "m" true
        initialServerState).1.currentStatus =
      (⟨none, none, -100, "t", 1000⟩ : Reading) :=
  ⟨(null_passes_validation cfg10_90 ⟨.null, .null, .undef, none⟩ 1000 "t" "m"
      true initialServerState (by decide) (by decide)).1,
   (null_passes_validation cfg10_90 ⟨.null, .null, .undef, none⟩ 1000 "t" "m"
      true initialServerState (by decide) (by decide)).2.1⟩

/-- Claim C9: after every accepted ingestion the newest history point holds
exactly the level stored in the current reading — both come from the same
parseFloat of the payload level. -/
theorem history_last_matches_current_level (cfg : AlertConfig)
    (p : UpdatePayload) (now : Int) (ts tl : String) (ok : Bool)
    (st : ServerState) :
    p.distance ≠ .undef → p.level ≠ .undef →
    (apiUpdate cfg p now ts tl ok st).1.history.getLast? =
      some ⟨tl, (apiUpdate cfg p now ts tl ok st).1.currentStatus.level⟩ := by
  intro h1 h2
  unfold apiUpdate
  rw [if_neg (not_or.mpr ⟨h1, h2⟩)]
  exact pushHistory_getLastEq st.history ⟨tl, jsParseFloat p.level⟩

/-- Witness for C9: a concrete accepted ingestion whose newest history point
carries the stored level. -/
theorem history_last_matches_witness :
    (apiUpdate cfg10_90 ⟨.num 1, .num 42, .undef, none⟩ 1000 "t" "m" true
        initialServerState).1.history.getLast? =
      some ⟨"m", (apiUpdate cfg10_90 ⟨.num 1, .num 42, .undef, none⟩ 1000 "t"
        "m" true initialServerState).1.currentStatus.level⟩ :=
  history_last_matches_current_level cfg10_90 ⟨.num 1, .num 42, .undef, none⟩
    1000 "t" "m" true initialServerState (by decide) (by decide)

end ESPCloud
